import Mathlib

/-!
Shallow embedding of the bot lifecycle and middleware-dispatch engine of
the truck2terminal bot (source file bot.py). Pure structure-building code
(middleware registration, storage selection) is embedded as Lean functions
on explicit state; the sequential effectful code (the body of main, the
startup and shutdown hooks, the top-level guard) is embedded as functions
producing explicit event traces, so ordering and occurrence-count
properties can be stated and proved.
-/

namespace Truck2Terminal

/-- Modelled from the spec: the configuration module (tgbot.config) is not
under the sources; per the spec it carries the bot credential token, the
list of administrator identities, the storage-backend selector, and, for
the networked backend, a connection URI. -/
structure TgBotConfig where
  token : String
  admin_ids : List Int
  use_redis : Bool
deriving DecidableEq

/-- Modelled from the spec: the redis section of the configuration; dsn
stands for the connection URI the method dsn() of the source returns. -/
structure RedisSettings where
  dsn : String
deriving DecidableEq

/-- Modelled from the spec: the Config snapshot loaded once at startup. -/
structure Config where
  tg_bot : TgBotConfig
  redis : RedisSettings
deriving DecidableEq

/-- Modelled from the spec: ExternalApiClient (MyApi of
infrastructure.some_api.api, not under the sources); the core depends only
on its construction and its close operation, so it is a bare handle. -/
structure MyApi where
deriving DecidableEq

/-- Middleware instances as constructed in register_global_middlewares:
ConfigMiddleware carries the config snapshot, ApiMiddleware carries the
api client handle, LanguageMiddleware carries nothing. -/
inductive Middleware
  | ConfigMiddleware (config : Config)
  | ApiMiddleware (api_client : MyApi)
  | LanguageMiddleware
deriving DecidableEq

/-- Modelled from the spec: a handler group (router); its internals are an
external collaborator, only its identity matters to the dispatcher. -/
structure Router where
  rid : Nat
deriving DecidableEq

/-- The key-namespacing scheme of the networked storage backend
(aiogram DefaultKeyBuilder), as configured in get_storage. -/
structure DefaultKeyBuilder where
  with_bot_id : Bool
  with_destiny : Bool
deriving DecidableEq

/-- The two storage backends get_storage can return: the networked store
built from a connection URI and a key builder, or the ephemeral
in-process store. -/
inductive Storage
  | RedisStorage (url : String) (key_builder : DefaultKeyBuilder)
  | MemoryStorage
deriving DecidableEq

/-- The dispatcher state the registration code mutates: its storage, its
router list, and the two outer-middleware pipelines (message updates and
callback-query updates). -/
structure Dispatcher where
  storage : Storage
  routers : List Router
  message_outer : List Middleware
  callback_query_outer : List Middleware
deriving DecidableEq

/-- dp.include_routers(*routers_list): appends the handler groups. -/
def include_routers (dp : Dispatcher) (rs : List Router) : Dispatcher :=
  { dp with routers := dp.routers ++ rs }

/-- register_global_middlewares (bot.py lines 39-62): builds the list
middleware_types starting from ConfigMiddleware(config); if api_client is
truthy it appends ApiMiddleware(api_client) and LanguageMiddleware; then
registers every element, in order, as outer middleware on both the
message pipeline and the callback-query pipeline. The unused session_pool
parameter of the source is kept (the DatabaseMiddleware line is commented
out in the source). -/
def register_global_middlewares (dp : Dispatcher) (config : Config)
    (api_client : Option MyApi) (session_pool : Option Unit) : Dispatcher :=
  let middleware_types := [Middleware.ConfigMiddleware config]
  let middleware_types :=
    match api_client with
    | some c => middleware_types ++ [Middleware.ApiMiddleware c, Middleware.LanguageMiddleware]
    | none => middleware_types
  middleware_types.foldl
    (fun d m =>
      { d with
          message_outer := d.message_outer ++ [m]
          callback_query_outer := d.callback_query_outer ++ [m] })
    dp

/-- The ordered middleware chain register_global_middlewares appends to
each pipeline, as a function of its inputs. -/
def middlewareChain (config : Config) (api_client : Option MyApi) : List Middleware :=
  match api_client with
  | some c => [Middleware.ConfigMiddleware config, Middleware.ApiMiddleware c,
               Middleware.LanguageMiddleware]
  | none => [Middleware.ConfigMiddleware config]

/-- get_storage (bot.py lines 91-108): the networked RedisStorage from the
connection URI with DefaultKeyBuilder(with_bot_id=True, with_destiny=True)
when config.tg_bot.use_redis holds, MemoryStorage otherwise. -/
def get_storage (config : Config) : Storage :=
  if config.tg_bot.use_redis then
    Storage.RedisStorage config.redis.dsn ⟨true, true⟩
  else
    Storage.MemoryStorage

/-- Observable events of a process run, in the order the source performs
them: log lines, the configuration load, the storage selection, the MyApi
construction, router inclusion, middleware registration, the webhook
deletion call with its drop_pending_updates flag, one send attempt per
administrator with its outcome, the entry into the polling loop, and the
api-client close call. -/
inductive Event
  | logLine (msg : String)
  | loadConfig
  | getStorageCall
  | constructApi
  | includeRoutersCall
  | registerMiddlewaresCall
  | deleteWebhookCall (drop_pending_updates : Bool)
  | adminSend (admin_id : Int) (ok : Bool)
  | startPolling
  | closeApi
deriving DecidableEq

/-- Occurrence count of an event in a trace. -/
def countE (e : Event) : List Event → Nat
  | [] => 0
  | x :: xs => (if x = e then 1 else 0) + countE e xs

/-- setup_logging (bot.py lines 65-88): configures logging and logs the
startup line. -/
def setup_logging : List Event :=
  [Event.logLine ("Starting bot")]

/-- Modelled from the spec: broadcaster.broadcast (tgbot.services, not
under the sources). Per the spec the startup broadcast is best-effort:
every administrator in the list gets exactly one send attempt, in list
order, and a failed attempt for one administrator is isolated and logged,
never propagated, so it removes no later attempt. The external send
outcome is the parameter send_ok. -/
def broadcast (admin_ids : List Int) (send_ok : Int → Bool) : List Event :=
  admin_ids.map (fun a => Event.adminSend a (send_ok a))

/-- on_startup (bot.py lines 18-19): broadcasts the startup notification
to the administrators. -/
def on_startup (admin_ids : List Int) (send_ok : Int → Bool) : List Event :=
  broadcast admin_ids send_ok

/-- delete_webhook (bot.py lines 22-27): calls bot.delete_webhook with
drop_pending_updates=True, then logs. -/
def delete_webhook : List Event :=
  [Event.deleteWebhookCall true,
   Event.logLine ("Webhook deleted before polling.")]

/-- on_shutdown (bot.py lines 30-36): closes the api client and logs when
the client is truthy; performs nothing when it is None or falsy. -/
def on_shutdown (api_client : Option MyApi) : List Event :=
  match api_client with
  | some _ => [Event.closeApi,
               Event.logLine ("API client closed successfully")]
  | none => []

/-- The dispatcher value the body of main builds (bot.py lines 111-121):
storage from get_storage, routers from the router list, then
register_global_middlewares with the unconditionally constructed MyApi()
passed as api_client and no session pool. -/
def main_dispatcher (routers_list : List Router) (config : Config) : Dispatcher :=
  let storage := get_storage config
  let api_client : MyApi := MyApi.mk
  let dp : Dispatcher := ⟨storage, [], [], []⟩
  let dp := include_routers dp routers_list
  register_global_middlewares dp config (some api_client) none

/-- The event trace of a normal run of main (bot.py lines 111-125):
setup_logging, load_config, get_storage, MyApi(), include_routers,
register_global_middlewares, delete_webhook, on_startup over the
administrator list, dp.start_polling, and after the polling loop returns,
on_shutdown on the constructed client. -/
def main_events (config : Config) (send_ok : Int → Bool) : List Event :=
  setup_logging
  ++ [Event.loadConfig, Event.getStorageCall, Event.constructApi,
      Event.includeRoutersCall, Event.registerMiddlewaresCall]
  ++ delete_webhook
  ++ on_startup config.tg_bot.admin_ids send_ok
  ++ [Event.startPolling]
  ++ on_shutdown (some MyApi.mk)

/-- How the coroutine main terminates, as seen by the top-level guard. -/
inductive MainOutcome
  | normal
  | keyboardInterrupt
  | systemExit
  | otherError
deriving DecidableEq

/-- What the process run ends with: the messages the except branch logs,
whether the interpreter printed an uncaught-exception traceback to stderr,
and the process exit code. -/
structure ProcessResult where
  logged : List String
  stderr_traceback : Bool
  exit_code : Nat
deriving DecidableEq

/-- The __main__ guard (bot.py lines 128-132): KeyboardInterrupt and
SystemExit are caught, the shutdown line is logged and the script falls
off the end, so the interpreter exits with code 0; a normal return also
exits 0; any other uncaught exception makes the interpreter print a
traceback and exit with code 1. -/
def run_main_guard : MainOutcome → ProcessResult
  | MainOutcome.normal => ⟨[], false, 0⟩
  | MainOutcome.keyboardInterrupt => ⟨["Бот був вимкнений!"], false, 0⟩
  | MainOutcome.systemExit => ⟨["Бот був вимкнений!"], false, 0⟩
  | MainOutcome.otherError => ⟨[], true, 1⟩

/-- Where a fatal startup failure happens: while configuring (load_config
raising) or while connecting (the Bot session construction raising, e.g.
an invalid token). -/
inductive FailPoint
  | configuring
  | connecting
deriving DecidableEq

/-- A run of main with an optional fatal startup failure: a configuring
failure stops right after setup_logging, a connecting failure stops after
the client construction and before any dispatcher work; without a failure
the run is the normal trace. The exception of a failed run reaches the
top level as an outcome the guard does not catch. -/
def main_run (config : Config) (send_ok : Int → Bool) :
    Option FailPoint → List Event × MainOutcome
  | some FailPoint.configuring => (setup_logging, MainOutcome.otherError)
  | some FailPoint.connecting =>
      (setup_logging
        ++ [Event.loadConfig, Event.getStorageCall, Event.constructApi],
       MainOutcome.otherError)
  | none => (main_events config send_ok, MainOutcome.normal)

/-- A concrete configuration used by the witnesses: two administrators,
ephemeral storage. -/
def sampleConfig : Config :=
  ⟨⟨"123456:TESTTOKEN", [111, 222], false⟩, ⟨"redis://localhost:6379/0"⟩⟩

/-- Closed form of register_global_middlewares: both pipelines receive the
same chain, appended after whatever was already registered. -/
lemma register_global_middlewares_eq (dp : Dispatcher) (config : Config)
    (api_client : Option MyApi) (sp : Option Unit) :
    register_global_middlewares dp config api_client sp =
      { dp with
          message_outer := dp.message_outer ++ middlewareChain config api_client
          callback_query_outer :=
            dp.callback_query_outer ++ middlewareChain config api_client } := by
  cases api_client <;>
    simp [register_global_middlewares, middlewareChain]

/-- Decomposition of the normal main trace into the fixed pre-broadcast
segment, the broadcast segment, and the fixed post-broadcast segment. -/
lemma main_events_eq (config : Config) (send_ok : Int → Bool) :
    main_events config send_ok =
      [Event.logLine ("Starting bot"), Event.loadConfig, Event.getStorageCall,
       Event.constructApi, Event.includeRoutersCall, Event.registerMiddlewaresCall,
       Event.deleteWebhookCall true,
       Event.logLine ("Webhook deleted before polling.")]
      ++ broadcast config.tg_bot.admin_ids send_ok
      ++ [Event.startPolling, Event.closeApi,
          Event.logLine ("API client closed successfully")] := by
  simp [main_events, setup_logging, delete_webhook, on_startup, on_shutdown]

lemma countE_append (e : Event) (l₁ l₂ : List Event) :
    countE e (l₁ ++ l₂) = countE e l₁ + countE e l₂ := by
  induction l₁ with
  | nil => simp [countE]
  | cons x xs ih => simp [countE, ih]; omega

/-- A broadcast segment holds only adminSend events. -/
lemma countE_broadcast (e : Event) (l : List Int) (f : Int → Bool)
    (h : ∀ a b, Event.adminSend a b ≠ e) :
    countE e (broadcast l f) = 0 := by
  induction l with
  | nil => simp [broadcast, countE]
  | cons x xs ih =>
      simp only [broadcast, List.map_cons, countE] at *
      simp [h x (f x), ih]

/-- Claim C1: every call to register_global_middlewares appends, to each
pipeline, the chain [ConfigMiddleware, ApiMiddleware, LanguageMiddleware]
when an api client is supplied, and [ConfigMiddleware] when it is absent;
ConfigMiddleware is present and first in every case. -/
theorem register_chain_spec (dp : Dispatcher) (config : Config) (sp : Option Unit) :
    (∀ a : MyApi,
        (register_global_middlewares dp config (some a) sp).message_outer
          = dp.message_outer
            ++ [Middleware.ConfigMiddleware config, Middleware.ApiMiddleware a,
                Middleware.LanguageMiddleware]
      ∧ (register_global_middlewares dp config (some a) sp).callback_query_outer
          = dp.callback_query_outer
            ++ [Middleware.ConfigMiddleware config, Middleware.ApiMiddleware a,
                Middleware.LanguageMiddleware])
    ∧ ((register_global_middlewares dp config none sp).message_outer
          = dp.message_outer ++ [Middleware.ConfigMiddleware config]
      ∧ (register_global_middlewares dp config none sp).callback_query_outer
          = dp.callback_query_outer ++ [Middleware.ConfigMiddleware config])
    ∧ ∀ api_client : Option MyApi, ∃ rest,
        (register_global_middlewares dp config api_client sp).message_outer
          = dp.message_outer ++ Middleware.ConfigMiddleware config :: rest := by
  refine ⟨fun a => ?_, ?_, fun api_client => ?_⟩
  · rw [register_global_middlewares_eq]; simp [middlewareChain]
  · rw [register_global_middlewares_eq]
    simp [middlewareChain]
  · cases api_client with
    | none =>
        exact ⟨[], by rw [register_global_middlewares_eq]; simp [middlewareChain]⟩
    | some a =>
        exact ⟨[Middleware.ApiMiddleware a, Middleware.LanguageMiddleware],
          by rw [register_global_middlewares_eq]; simp [middlewareChain]⟩

/-- Claim C6: the message pipeline and the callback-query pipeline receive
exactly the same middleware chain value (the same instances in the same
registration order), each appended as outer middleware. -/
theorem pipelines_identical (dp : Dispatcher) (config : Config)
    (api_client : Option MyApi) (sp : Option Unit) :
    (register_global_middlewares dp config api_client sp).message_outer
        = dp.message_outer ++ middlewareChain config api_client
    ∧ (register_global_middlewares dp config api_client sp).callback_query_outer
        = dp.callback_query_outer ++ middlewareChain config api_client := by
  rw [register_global_middlewares_eq]
  exact ⟨rfl, rfl⟩

/-- Claim C3: get_storage returns the networked RedisStorage, built from
the configured connection URI with a key builder scoping keys by bot
identity and by destiny, exactly when use_redis is set, and MemoryStorage
otherwise; main performs the selection exactly once per run. -/
theorem get_storage_spec (config : Config) :
    (get_storage config
        = Storage.RedisStorage config.redis.dsn ⟨true, true⟩
      ↔ config.tg_bot.use_redis = true)
    ∧ (get_storage config = Storage.MemoryStorage
      ↔ config.tg_bot.use_redis = false)
    ∧ ∀ f : Int → Bool,
        countE Event.getStorageCall (main_events config f) = 1 := by
  refine ⟨?_, ?_, fun f => ?_⟩
  · cases h : config.tg_bot.use_redis <;> simp [get_storage, h]
  · cases h : config.tg_bot.use_redis <;> simp [get_storage, h]
  · rw [main_events_eq, countE_append, countE_append,
      countE_broadcast _ _ _ (by intro a b; simp)]
    decide

/-- Claim C4: a normal run of main closes the api client exactly once
(the trace contains no update dispatch at all, so in particular none is
needed for the close to happen), and on_shutdown invoked with a
never-constructed (None/falsy) client performs no close call and no other
action. -/
theorem shutdown_close_once (config : Config) (send_ok : Int → Bool) :
    on_shutdown none = []
    ∧ (∀ a : MyApi, on_shutdown (some a)
        = [Event.closeApi, Event.logLine ("API client closed successfully")])
    ∧ countE Event.closeApi (main_events config send_ok) = 1 := by
  refine ⟨rfl, fun a => rfl, ?_⟩
  rw [main_events_eq, countE_append, countE_append,
    countE_broadcast _ _ _ (by intro a b; simp)]
  decide

/-- In every normal main trace the webhook-clear call with the drop flag
comes before the polling-loop entry. -/
lemma sublist_webhook_polling (config : Config) (send_ok : Int → Bool) :
    List.Sublist [Event.deleteWebhookCall true, Event.startPolling]
      (main_events config send_ok) := by
  rw [main_events_eq]
  have h₁ : List.Sublist [Event.deleteWebhookCall true]
      [Event.logLine ("Starting bot"), Event.loadConfig, Event.getStorageCall,
       Event.constructApi, Event.includeRoutersCall, Event.registerMiddlewaresCall,
       Event.deleteWebhookCall true,
       Event.logLine ("Webhook deleted before polling.")] := by
    rw [List.singleton_sublist]; simp
  have h₂ : List.Sublist [Event.startPolling]
      (broadcast config.tg_bot.admin_ids send_ok
        ++ [Event.startPolling, Event.closeApi,
            Event.logLine ("API client closed successfully")]) := by
    rw [List.singleton_sublist]; simp
  simpa using List.Sublist.append h₁ h₂

/-- Claim C5: every webhook-clear call in the main trace carries
drop_pending_updates = true (pending updates are discarded, never
delivered), such a call occurs, and it occurs before the polling loop is
entered. -/
theorem webhook_drops_pending (config : Config) (send_ok : Int → Bool) :
    (∀ b : Bool,
        Event.deleteWebhookCall b ∈ main_events config send_ok → b = true)
    ∧ Event.deleteWebhookCall true ∈ main_events config send_ok
    ∧ List.Sublist [Event.deleteWebhookCall true, Event.startPolling]
        (main_events config send_ok) := by
  refine ⟨fun b hb => ?_, ?_, sublist_webhook_polling config send_ok⟩
  · rw [main_events_eq] at hb
    simp [broadcast, List.mem_append, List.mem_map] at hb
    exact hb
  · rw [main_events_eq]; simp

/-- Witness for claim C5 at the sample configuration. -/
theorem webhook_drops_pending_witness : (true : Bool) = true :=
  (webhook_drops_pending sampleConfig (fun x => true)).1 true (by decide)

/-- Claim C2: in the startup sequence of main the webhook-clear call comes
strictly before every administrator send attempt, which comes strictly
before the polling loop is entered; the webhook-clear and the
polling-loop entry each occur exactly once, so the sublists fix their
relative order. -/
theorem startup_order (config : Config) (send_ok : Int → Bool) :
    List.Sublist [Event.deleteWebhookCall true, Event.startPolling]
      (main_events config send_ok)
    ∧ (∀ a : Int, a ∈ config.tg_bot.admin_ids →
        List.Sublist
          [Event.deleteWebhookCall true, Event.adminSend a (send_ok a),
           Event.startPolling]
          (main_events config send_ok))
    ∧ countE (Event.deleteWebhookCall true) (main_events config send_ok) = 1
    ∧ countE Event.startPolling (main_events config send_ok) = 1 := by
  refine ⟨sublist_webhook_polling config send_ok, fun a ha => ?_, ?_, ?_⟩
  · rw [main_events_eq]
    have h₁ : List.Sublist [Event.deleteWebhookCall true]
        [Event.logLine ("Starting bot"), Event.loadConfig, Event.getStorageCall,
         Event.constructApi, Event.includeRoutersCall, Event.registerMiddlewaresCall,
         Event.deleteWebhookCall true,
         Event.logLine ("Webhook deleted before polling.")] := by
      rw [List.singleton_sublist]; simp
    have h₂ : List.Sublist [Event.adminSend a (send_ok a)]
        (broadcast config.tg_bot.admin_ids send_ok) := by
      rw [List.singleton_sublist, broadcast]
      exact List.mem_map_of_mem _ ha
    have h₃ : List.Sublist [Event.startPolling]
        [Event.startPolling, Event.closeApi,
         Event.logLine ("API client closed successfully")] := by
      rw [List.singleton_sublist]; simp
    simpa using List.Sublist.append h₁ (List.Sublist.append h₂ h₃)
  · rw [main_events_eq, countE_append, countE_append,
      countE_broadcast _ _ _ (by intro a b; simp)]
    decide
  · rw [main_events_eq, countE_append, countE_append,
      countE_broadcast _ _ _ (by intro a b; simp)]
    decide

/-- Witness for claim C2: administrator 111 of the sample configuration is
broadcast to after the webhook clear and before polling. -/
theorem startup_order_witness :
    List.Sublist
      [Event.deleteWebhookCall true, Event.adminSend 111 true, Event.startPolling]
      (main_events sampleConfig (fun x => true)) :=
  (startup_order sampleConfig (fun x => true)).2.1 111 (by decide)

/-- Claim C7: an interrupt signal reaching the top level as
KeyboardInterrupt or SystemExit is caught by the guard, the shutdown
message is logged, and the process exits with code 0. -/
theorem interrupt_exit_zero :
    run_main_guard MainOutcome.keyboardInterrupt
        = ⟨["Бот був вимкнений!"], false, 0⟩
    ∧ run_main_guard MainOutcome.systemExit
        = ⟨["Бот був вимкнений!"], false, 0⟩ :=
  ⟨rfl, rfl⟩

/-- Claim C8: a fatal failure in the configuring or connecting phase
produces a trace that never enters the polling loop, and the exception
escapes the guard, so the interpreter reports it and the process exits
with the non-zero code 1. -/
theorem fatal_startup_errors (config : Config) (send_ok : Int → Bool)
    (fp : FailPoint) :
    countE Event.startPolling (main_run config send_ok (some fp)).1 = 0
    ∧ (run_main_guard (main_run config send_ok (some fp)).2).exit_code = 1
    ∧ (run_main_guard (main_run config send_ok (some fp)).2).stderr_traceback
        = true := by
  cases fp <;> exact ⟨rfl, rfl, rfl⟩

/-- Claim C9: the startup broadcast attempts exactly one send per
administrator, in list order, whatever the outcome of every other send,
so a failure for one administrator removes no attempt for another; and
the polling loop is entered for every send-outcome assignment, so the
broadcast aborts no startup. -/
theorem broadcast_attempts_all (admin_ids : List Int) (send_ok : Int → Bool) :
    (broadcast admin_ids send_ok).length = admin_ids.length
    ∧ (∀ a : Int, a ∈ admin_ids →
        Event.adminSend a (send_ok a) ∈ broadcast admin_ids send_ok)
    ∧ ∀ (c : Config) (f : Int → Bool),
        Event.startPolling ∈ main_events c f := by
  refine ⟨by simp [broadcast], fun a ha => ?_, fun c f => ?_⟩
  · rw [broadcast]
    exact List.mem_map_of_mem _ ha
  · rw [main_events_eq]; simp

/-- Witness for claim C9: with administrators [111, 222] and the send to
111 failing, the send to 222 is still attempted and succeeds. -/
theorem broadcast_attempts_all_witness :
    Event.adminSend 222 true ∈ broadcast [111, 222] (fun a => a == 222) :=
  (broadcast_attempts_all [111, 222] (fun a => a == 222)).2.1 222 (by decide)

/-- Claim C10: main constructs MyApi unconditionally and passes it to
register_global_middlewares as a truthy value, so the dispatcher main
builds carries all three middlewares on both pipelines, the construction
event precedes the registration event in every trace, and a registration
that appends only ConfigMiddleware can only have received api_client =
none, which main never passes. -/
theorem main_registers_full_chain (routers_list : List Router) (config : Config)
    (send_ok : Int → Bool) :
    (main_dispatcher routers_list config).message_outer
      = [Middleware.ConfigMiddleware config, Middleware.ApiMiddleware MyApi.mk,
         Middleware.LanguageMiddleware]
    ∧ (main_dispatcher routers_list config).callback_query_outer
      = [Middleware.ConfigMiddleware config, Middleware.ApiMiddleware MyApi.mk,
         Middleware.LanguageMiddleware]
    ∧ (∀ (dp : Dispatcher) (c : Config) (api_client : Option MyApi)
          (sp : Option Unit),
        (register_global_middlewares dp c api_client sp).message_outer
            = dp.message_outer ++ [Middleware.ConfigMiddleware c]
          → api_client = none)
    ∧ List.Sublist [Event.constructApi, Event.registerMiddlewaresCall]
        (main_events config send_ok)
    ∧ countE Event.constructApi (main_events config send_ok) = 1 := by
  refine ⟨?_, ?_, fun dp c api_client sp h => ?_, ?_, ?_⟩
  · simp [main_dispatcher, include_routers, register_global_middlewares_eq,
      middlewareChain]
  · simp [main_dispatcher, include_routers, register_global_middlewares_eq,
      middlewareChain]
  · cases api_client with
    | none => rfl
    | some a =>
        exfalso
        rw [register_global_middlewares_eq] at h
        have hl := congrArg List.length h
        simp [middlewareChain] at hl
  · rw [main_events_eq]
    refine List.Sublist.trans ?_
      (List.Sublist.trans (List.sublist_append_left _ _)
        (List.sublist_append_left _ _))
    decide
  · rw [main_events_eq, countE_append, countE_append,
      countE_broadcast _ _ _ (by intro a b; simp)]
    decide

/-- Witness for claim C10: a direct call of register_global_middlewares
appending only ConfigMiddleware forces api_client = none. -/
theorem main_registers_full_chain_witness : (none : Option MyApi) = none :=
  (main_registers_full_chain [] sampleConfig (fun x => true)).2.2.1
    ⟨Storage.MemoryStorage, [], [], []⟩ sampleConfig none none (by decide)

end Truck2Terminal
